import Mathlib

/-!
Shallow embedding of the trend-tracking backend (`backend/app`), covering the
scoring engine (`trends/service.py`), the Google-Trends upsert
(`scrapers/google_trends.py`), the keyword registry operations
(`trends/router.py`, `scheduler/jobs.py`), the forecast engine
(`forecasting/model.py`) and the discovery / deduplication engine
(`scrapers/discovery.py`).  Python floats are modelled as exact rationals,
strings as Lean strings or lists of characters, database reads as explicit
arguments, and calls to external collaborators as oracle arguments.
-/

/-- Python `round(x)` (banker's rounding, round-half-to-even) on a rational. -/
def roundHalfEven (x : ℚ) : ℤ :=
  let f := ⌊x⌋
  let r := x - f
  if r < 1/2 then f
  else if r > 1/2 then f + 1
  else if f % 2 = 0 then f else f + 1

/-- Python `round(x, 2)`: round to two decimal places. -/
def round2 (x : ℚ) : ℚ := (roundHalfEven (100 * x) : ℚ) / 100

/-- `service._get_growth_rate`: percentage growth between the two halves of a
time window.  Returns 0 when either half is empty; when the first-half mean is
zero, returns 100 for a positive second-half mean and 0 otherwise. -/
def _get_growth_rate (values_first_half values_second_half : List ℚ) : ℚ :=
  if values_first_half = [] ∨ values_second_half = [] then 0
  else
    let avg_first := values_first_half.sum / values_first_half.length
    let avg_second := values_second_half.sum / values_second_half.length
    if avg_first = 0 then (if avg_second > 0 then 100 else 0)
    else (avg_second - avg_first) / avg_first * 100

/-- The acceleration computed inside `service._detect_lifecycle`:
`prev_score_values` holds the prior stored composite scores for the keyword
ordered by `computed_at` descending (most recent first, across all periods,
at most 3 rows fetched); the code uses
`(composite_score - prev_score_values[0]) if len(prev_score_values) >= 2 else 0`. -/
def acceleration_of (composite_score : ℚ) (prev_score_values : List ℚ) : ℚ :=
  match prev_score_values with
  | a :: _ :: _ => composite_score - a
  | _ => 0

/-- Pure core of `service._detect_lifecycle` once the database reads
(total summed volume over the window, prior stored scores) are made explicit:
the scale-aware threshold table and the ordered decision rules. -/
def _detect_lifecycle (total_volume volume_growth acceleration : ℚ)
    (scale : String) : String :=
  let is_micro := scale = "micro"
  let dormant_thresh : ℚ := if is_micro then 2 else 5
  let emerging_vol_thresh : ℚ := if is_micro then 15 else 100
  let peak_vol_thresh : ℚ := if is_micro then 5 else 50
  if total_volume < dormant_thresh then "Dormant"
  else if volume_growth > 30 ∧ total_volume < emerging_vol_thresh then "Emerging"
  else if volume_growth > 20 ∧ acceleration > 0 then "Accelerating"
  else if -5 ≤ volume_growth ∧ volume_growth ≤ 10 ∧ total_volume > peak_vol_thresh then
    (if acceleration ≤ 0 then "Peak" else "Accelerating")
  else if -20 ≤ volume_growth ∧ volume_growth < -5 then "Saturation"
  else if volume_growth < -20 then "Decline"
  else if volume_growth > 10 then "Emerging" else "Peak"

/-- The dormant threshold of `_detect_lifecycle` (`2 if is_micro else 5`). -/
def dormant_threshold (scale : String) : ℚ := if scale = "micro" then 2 else 5

/-- The emerging-volume ceiling of `_detect_lifecycle` (`15 if is_micro else 100`). -/
def emerging_vol_threshold (scale : String) : ℚ := if scale = "micro" then 15 else 100

/-- The peak-volume floor of `_detect_lifecycle` (`5 if is_micro else 50`). -/
def peak_vol_threshold (scale : String) : ℚ := if scale = "micro" then 5 else 50

/-- The record returned by `service.compute_composite_score` and stored (after
delete-then-insert) by `compute_and_store_scores`. -/
structure ScoreRecord where
  keyword : String
  period_days : ℕ
  volume_growth : ℚ
  price_growth : ℚ
  composite_score : ℚ
  lifecycle_stage : String
  scale : String

/-- `service.compute_composite_score` with its database reads made explicit:
the volume samples of the first and second half of the window (across the four
volume metrics), the `avg_price` samples of the two halves, the prior stored
composite scores (most recent first) read by `_detect_lifecycle`, and the
registry scale already resolved (see `scale_from_registry`).  The total volume
re-queried by `_detect_lifecycle` (`SELECT SUM(value) ...` over the same window
and metrics) is the sum of the same samples. -/
def compute_composite_score (keyword : String) (period_days : ℕ)
    (first_half_volumes second_half_volumes : List ℚ)
    (first_half_prices second_half_prices : List ℚ)
    (prev_score_values : List ℚ) (scale : String) : ScoreRecord :=
  let volume_growth := _get_growth_rate first_half_volumes second_half_volumes
  let price_growth := _get_growth_rate first_half_prices second_half_prices
  let composite_score := 0.6 * volume_growth + 0.4 * price_growth
  let total_volume := (first_half_volumes ++ second_half_volumes).sum
  let lifecycle_stage := _detect_lifecycle total_volume volume_growth
    (acceleration_of composite_score prev_score_values) scale
  { keyword := keyword
    period_days := period_days
    volume_growth := round2 volume_growth
    price_growth := round2 price_growth
    composite_score := round2 composite_score
    lifecycle_stage := lifecycle_stage
    scale := scale }

/-- `google_trends._scrape_google_trends_once`, upsert of one daily
search-volume cell: `rows` is the list of stored rows for this
`(keyword, source=google_trends, metric=search_volume, date)` key (the code
fetches one with `fetchone`).  If a row exists its value is overwritten only
when it is `0.0` or the new value is strictly greater; otherwise a new row is
inserted. -/
def upsert_search_volume (rows : List ℚ) (value : ℚ) : List ℚ :=
  match rows with
  | [] => [value]
  | existing :: rest =>
    (if existing = 0 ∨ value > existing then value else existing) :: rest

/-- One row of the `keywords` registry table. -/
structure KeywordRow where
  keyword : String
  source : String
  status : String
  last_searched_at : Option String

/-- `router.remove_keyword` applied to the row looked up for the requested
keyword: returns the row after the operation together with the HTTP error
status, if any (404 when the keyword does not exist, 403 when its source is
`seed`; in both error cases the row is left unchanged). -/
def remove_keyword (row : Option KeywordRow) : Option KeywordRow × Option ℕ :=
  match row with
  | none => (none, some 404)
  | some r =>
    if r.source = "seed" then (some r, some 403)
    else (some { r with status := "inactive" }, none)

/-- The staleness test of `jobs.expire_stale_keywords`:
`last_searched_at IS NULL OR last_searched_at < cutoff` (ISO-8601 timestamps
compare lexicographically). -/
def is_stale (cutoff : String) (last_searched_at : Option String) : Bool :=
  match last_searched_at with
  | none => true
  | some t => decide (t < cutoff)

/-- `jobs.expire_stale_keywords` applied to one registry row: flips the status
to `inactive` exactly when `source = 'user_search' AND status = 'active'` and
the row is stale. -/
def expire_stale_keywords_row (cutoff : String) (r : KeywordRow) : KeywordRow :=
  if r.source = "user_search" ∧ r.status = "active" ∧ is_stale cutoff r.last_searched_at then
    { r with status := "inactive" }
  else r

/-- Python truthiness on the registry `scale` column (`row["scale"] or "macro"`
in `discovery.refine_scale_classifications`): `None` (NULL) and the empty
string are falsy and default to `"macro"`. -/
def scale_or_default (scale : Option String) : String :=
  match scale with
  | none => "macro"
  | some s => if s = "" then "macro" else s

/-- Scale resolution in `service.compute_composite_score`:
`scale_row["scale"] if scale_row and scale_row["scale"] else "macro"`.
The outer `Option` models whether the keyword has a registry row at all. -/
def scale_from_registry (row : Option (Option String)) : String :=
  match row with
  | none => "macro"
  | some s => scale_or_default s

/-- `COALESCE(k.scale, 'macro')` over the `LEFT JOIN` in
`service.get_top_trends` and `router.ranking_forecast`: a missing registry row
(join produces NULL) and a NULL scale both resolve to `"macro"`. -/
def coalesce_scale (row : Option (Option String)) : String :=
  match row with
  | none => "macro"
  | some none => "macro"
  | some (some s) => s

/-- Python `sorted(xs, key=key, reverse=True)`: a stable descending sort,
modelled by insertion sort on the relation `fun a b => key b ≤ key a`
(elements with equal keys keep their original relative order, as in Python). -/
def sortByDesc {α : Type} (key : α → ℚ) (l : List α) : List α :=
  l.insertionSort (fun a b => key b ≤ key a)

/-- One row of the `get_top_trends` query result.  The ranking logic reads only
the (possibly NULL) composite score and the coalesced scale; the remaining
payload columns of the row are carried through unchanged and omitted here. -/
structure TrendRow where
  keyword : String
  composite_score : Option ℚ
  scale : String

/-- The sort key of `get_top_trends`: `t["composite_score"] or 0`. -/
def trend_sort_key (t : TrendRow) : ℚ := t.composite_score.getD 0

/-- One within-scale group of `service.get_top_trends`: the trends whose
coalesced scale equals `s`, sorted by composite score descending. -/
def scale_group (s : String) (all_trends : List TrendRow) : List TrendRow :=
  sortByDesc trend_sort_key (all_trends.filter (fun t => decide (t.scale = s)))

/-- Index-carrying loop of `assign_percentile`
(`for i, t in enumerate(group): t["_pct"] = (n - i) / n if n > 0 else 0.5`). -/
def assign_percentile_aux (n : ℕ) : ℕ → List TrendRow → List (TrendRow × ℚ)
  | _, [] => []
  | i, t :: ts =>
    (t, if 0 < n then ((n : ℚ) - (i : ℚ)) / (n : ℚ) else 0.5) ::
      assign_percentile_aux n (i + 1) ts

/-- `service.get_top_trends.assign_percentile`: pair every trend of a group
with its within-group percentile `(n - i) / n`. -/
def assign_percentile (group : List TrendRow) : List (TrendRow × ℚ) :=
  assign_percentile_aux group.length 0 group

/-- The combined list built by `service.get_top_trends` before the limit is
applied: percentiles are assigned within the two scale groups, the groups are
concatenated, and the result is sorted by percentile descending. -/
def combined_trends (all_trends : List TrendRow) : List (TrendRow × ℚ) :=
  sortByDesc (fun p => p.2)
    (assign_percentile (scale_group "macro" all_trends) ++
      assign_percentile (scale_group "micro" all_trends))

/-- `service.get_top_trends`: the first `limit` entries of the combined list,
with 1-based ranks attached. -/
def get_top_trends (all_trends : List TrendRow) (limit : ℕ) : List (ℕ × TrendRow) :=
  ((combined_trends all_trends).take limit).enum.map (fun p => (p.1 + 1, p.2.1))

/-- A concrete score-table snapshot: ten `"macro"` trends with composite scores
100, 90, ..., 10 and two `"micro"` trends with scores 8 and 3. -/
def exampleTrends : List TrendRow :=
  [⟨"m1", some 100, "macro"⟩, ⟨"m2", some 90, "macro"⟩, ⟨"m3", some 80, "macro"⟩,
   ⟨"m4", some 70, "macro"⟩, ⟨"m5", some 60, "macro"⟩, ⟨"m6", some 50, "macro"⟩,
   ⟨"m7", some 40, "macro"⟩, ⟨"m8", some 30, "macro"⟩, ⟨"m9", some 20, "macro"⟩,
   ⟨"m10", some 10, "macro"⟩, ⟨"u1", some 8, "micro"⟩, ⟨"u2", some 3, "micro"⟩]

/-- `forecasting/model.py`: `MIN_POINTS`. -/
def MIN_POINTS : ℕ := 7

/-- `forecasting/model.py`: `FIT_WINDOW`. -/
def FIT_WINDOW : ℕ := 21

/-- `forecasting/model.py`: `CONFIDENCE_Z = 1.96`. -/
def CONFIDENCE_Z : ℚ := 1.96

/-- `np.clip(x, lo, hi)`. -/
def clip (x lo hi : ℚ) : ℚ := min (max x lo) hi

/-- `np.polyfit(x, y, 1)` with `x = 0, 1, ..., n-1`: the least-squares line
through the points, given by the normal equations
`slope = (n·Σxy − Σx·Σy) / (n·Σx² − (Σx)²)` and
`intercept = (Σy·Σx² − Σx·Σxy) / (n·Σx² − (Σx)²)`. -/
def polyfit1 (ys : List ℚ) : ℚ × ℚ :=
  let n : ℚ := ys.length
  let xs : List ℚ := (List.range ys.length).map (fun i => (i : ℚ))
  let sx := xs.sum
  let sy := ys.sum
  let sxx := (xs.map (fun x => x * x)).sum
  let sxy := ((xs.zip ys).map (fun p => p.1 * p.2)).sum
  let denom := n * sxx - sx * sx
  ((n * sxy - sx * sy) / denom, (sy * sxx - sx * sxy) / denom)

/-- One projected point of the forecast (`{date, value, lower, upper}`); the
date is modelled by its day offset after the last historical point. -/
structure ForecastPoint where
  day : ℕ
  value : ℚ
  lower : ℚ
  upper : ℚ

/-- The result record of `forecast_search_volume`. -/
structure ForecastResult where
  historical : List ℚ
  forecast : List ForecastPoint
  insufficient_data : Bool
  fit_window_days : ℕ
  model : String

/-- `model.forecast_search_volume` with the database read made explicit:
`historical` is the per-day averaged search-volume series ordered by date.
`std` is the standard deviation of the in-sample fit residuals computed by the
code via `np.std` (an irrational square root in general, defaulting to `5.0`
when fewer than 2 residuals exist); it is passed as a parameter because it only
shifts the confidence band, which is clamped regardless of its value.  With at
least `MIN_POINTS` points the fitted degree is `min(POLY_DEGREE, n-1) = 1`. -/
def forecast_search_volume (historical : List ℚ) (horizon_days : ℕ) (std : ℚ) :
    ForecastResult :=
  if historical.length < MIN_POINTS then
    { historical := historical, forecast := [], insufficient_data := true,
      fit_window_days := 0, model := "none" }
  else
    let fit_data := historical.drop (historical.length - FIT_WINDOW)
    let coeffs := polyfit1 fit_data
    let x_offset := fit_data.length
    let points := (List.range horizon_days).map (fun i =>
      let xi : ℚ := ((x_offset + i : ℕ) : ℚ)
      let val := clip (coeffs.1 * xi + coeffs.2) 0 100
      { day := i + 1, value := val,
        lower := clip (val - CONFIDENCE_Z * std) 0 100,
        upper := clip (val + CONFIDENCE_Z * std) 0 100 : ForecastPoint })
    { historical := historical, forecast := points, insufficient_data := false,
      fit_window_days := fit_data.length, model := "polynomial_deg1" }

/-- Python `str.lower` on an explicit character list. -/
def pyLower (s : List Char) : List Char := s.map Char.toLower

/-- Python `str.upper` on an explicit character list. -/
def pyUpper (s : List Char) : List Char := s.map Char.toUpper

/-- Whitespace test used by Python `str.strip` / regex `\s`. -/
def isWS (c : Char) : Bool := c.isWhitespace

/-- Python `str.strip` on an explicit character list: drop leading and
trailing whitespace. -/
def pyStrip (s : List Char) : List Char :=
  ((s.dropWhile isWS).reverse.dropWhile isWS).reverse

/-- `re.sub(r'\s+', ' ', s)`: collapse every maximal whitespace run to a
single space.  The boolean state records whether the previous character was
part of a whitespace run already emitted as one space. -/
def collapse_ws : Bool → List Char → List Char
  | _, [] => []
  | prevWS, c :: cs =>
    if isWS c then
      if prevWS then collapse_ws true cs
      else ' ' :: collapse_ws true cs
    else c :: collapse_ws false cs

/-- `router._normalize`: `re.sub(r'\s+', ' ', keyword.lower().strip())` —
lowercase, trim, collapse internal whitespace runs to a single space.  Applied
to every keyword string that enters through the router (user search,
comparison add, activate/remove). -/
def _normalize (keyword : List Char) : List Char :=
  collapse_ws false (pyStrip (pyLower keyword))

/-- The string stored by `discovery.load_seed_keywords`:
`keyword.lower().strip()` — no whitespace collapsing. -/
def seed_normalize (keyword : List Char) : List Char := pyStrip (pyLower keyword)

/-- The string stored by `discovery.run_discovery` for a candidate:
`candidate.lower().strip()` — no whitespace collapsing. -/
def discovery_normalize (candidate : List Char) : List Char := pyStrip (pyLower candidate)

/-- `true` iff the list has no two adjacent whitespace characters (the
"internal whitespace collapsed" part of the normalization invariant). -/
def no_adjacent_ws : List Char → Bool
  | a :: b :: t => (!(isWS a && isWS b)) && no_adjacent_ws (b :: t)
  | _ => true

/-- `discovery.find_similar_keyword`, with the two Claude calls modelled as
oracle arguments.  `api_key_set` models `settings.anthropic_api_key` being
configured; `tracked` is the result of the `status != 'inactive'` registry
query; `propose_reply` is the raw text of the first (propose) call and
`confirm_reply` the raw text of the second (yes/no confirmation) call, each
`Except.error` when the call raises (the whole `try` block then falls back
to `None`).  Strings are explicit character lists so the `.strip()`,
`.lower()` and `.upper()` post-processing of the replies is computable. -/
def find_similar_keyword (api_key_set : Bool) (keyword : List Char)
    (tracked : List (List Char))
    (propose_reply : Except Unit (List Char))
    (confirm_reply : Except Unit (List Char))
    (confirm : Bool) : Option (List Char) :=
  if !api_key_set then none
  else
    let existing := tracked.filter (fun k => k ≠ keyword)
    if existing = [] then none
    else
      match propose_reply with
      | .error _ => none
      | .ok raw =>
        let reply := pyLower (pyStrip raw)
        if reply = "none".data then none
        else
          match existing.find? (fun k => pyLower k = reply) with
          | none => none
          | some matched =>
            if !confirm then some matched
            else
              match confirm_reply with
              | .error _ => none
              | .ok craw =>
                if pyUpper (pyStrip craw) = "YES".data then some matched else none

/-! ### Helper lemmas -/

theorem roundHalfEven_intCast (z : ℤ) : roundHalfEven (z : ℚ) = z := by
  unfold roundHalfEven
  norm_num

theorem round2_eq_self_of_mul_eq_int (q : ℚ) (z : ℤ) (h : 100 * q = z) :
    round2 q = q := by
  unfold round2
  rw [h, roundHalfEven_intCast, ← h]
  ring

theorem clip_le_hi (x lo hi : ℚ) : clip x lo hi ≤ hi := min_le_right _ _

theorem lo_le_clip (x lo hi : ℚ) (h : lo ≤ hi) : lo ≤ clip x lo hi :=
  le_min (le_max_right x lo) h

theorem sorted_sortByDesc {α : Type} (key : α → ℚ) (l : List α) :
    List.Sorted (fun a b => key b ≤ key a) (sortByDesc key l) := by
  haveI : IsTotal α (fun a b => key b ≤ key a) := ⟨fun a b => le_total (key b) (key a)⟩
  haveI : IsTrans α (fun a b => key b ≤ key a) := ⟨fun _ _ _ h1 h2 => le_trans h2 h1⟩
  exact List.sorted_insertionSort _ l

theorem collapse_ws_head_not_ws :
    ∀ (cs : List Char) (d : Char) (t : List Char),
      collapse_ws true cs = d :: t → isWS d = false := by
  intro cs
  induction cs with
  | nil => intro d t h; cases h
  | cons c cs ih =>
    intro d t h
    by_cases hc : isWS c
    · rw [collapse_ws, if_pos hc, if_pos rfl] at h
      exact ih d t h
    · rw [collapse_ws, if_neg hc] at h
      cases h
      simpa using hc

theorem no_adjacent_ws_collapse :
    ∀ (cs : List Char) (prev : Bool), no_adjacent_ws (collapse_ws prev cs) = true := by
  intro cs
  induction cs with
  | nil => intro prev; rfl
  | cons c cs ih =>
    intro prev
    by_cases hc : isWS c
    · cases prev
      · rw [collapse_ws, if_pos hc, if_neg (by simp)]
        cases hcc : collapse_ws true cs with
        | nil => rfl
        | cons d t =>
          have hd := collapse_ws_head_not_ws cs d t hcc
          rw [no_adjacent_ws, hd]
          simpa [hcc] using ih true
      · rw [collapse_ws, if_pos hc, if_pos rfl]
        exact ih true
    · rw [collapse_ws, if_neg hc]
      cases hcc : collapse_ws false cs with
      | nil => rfl
      | cons d t =>
        rw [no_adjacent_ws]
        have hcb : isWS c = false := by simpa using hc
        rw [hcb]
        simpa [hcc] using ih false

/-! ### Claim theorems -/

/-- Claim C1, counterexample: with prior stored scores `[10, 20]` (most recent
first) and current composite score `30`, the acceleration computed by
`_detect_lifecycle` is `30 − 10 = 20` (baseline `prev_score_values[0]`, the
most recent prior stored score), not `30 − 20 = 10` as "composite score minus
the composite score from two computations ago" would require. -/
theorem C1_acceleration_counterexample : acceleration_of 30 [10, 20] ≠ 30 - 20 := by
  norm_num [acceleration_of]

/-- Claim C1, amended: the acceleration used by lifecycle classification equals
the current composite score minus the most recent prior stored composite score
(`prev_score_values[0]`) whenever at least 2 prior stored scores exist for the
keyword, and equals 0 when fewer than 2 exist. -/
theorem C1_acceleration_baseline :
    (∀ (cs a b : ℚ) (rest : List ℚ), acceleration_of cs (a :: b :: rest) = cs - a) ∧
    (∀ cs : ℚ, acceleration_of cs [] = 0) ∧
    (∀ cs a : ℚ, acceleration_of cs [a] = 0) :=
  ⟨fun _ _ _ _ => rfl, fun _ => rfl, fun _ _ => rfl⟩

/-- Claim C2: the Google-Trends daily upsert overwrites an existing value
exactly when it is `0.0` or the new value is strictly greater, leaves it
unchanged otherwise, never creates a duplicate row, and inserts a new row when
none exists — including the three concrete instances of the spec. -/
theorem C2_google_trends_upsert :
    (∀ e v : ℚ, (e = 0 ∨ v > e) → upsert_search_volume [e] v = [v]) ∧
    (∀ e v : ℚ, ¬(e = 0 ∨ v > e) → upsert_search_volume [e] v = [e]) ∧
    (∀ v : ℚ, upsert_search_volume [] v = [v]) ∧
    (∀ (rows : List ℚ) (v : ℚ),
      (upsert_search_volume rows v).length = max rows.length 1) ∧
    upsert_search_volume [0] 42 = [42] ∧
    upsert_search_volume [42] 0 = [42] ∧
    upsert_search_volume [10] 25 = [25] := by
  refine ⟨?_, ?_, fun v => rfl, ?_, ?_, ?_, ?_⟩
  · intro e v h; simp [upsert_search_volume, h]
  · intro e v h; simp [upsert_search_volume, h]
  · intro rows v; cases rows <;> simp [upsert_search_volume]
  · norm_num [upsert_search_volume]
  · norm_num [upsert_search_volume]
  · norm_num [upsert_search_volume]

/-- Witness for `C2_google_trends_upsert` at concrete inputs: the overwrite
branch at existing 0 / new 42 and the keep branch at existing 5 / new 3. -/
theorem C2_google_trends_upsert_witness :
    ((0:ℚ) = 0 ∨ (42:ℚ) > 0) ∧ upsert_search_volume [0] 42 = [42] ∧
    ¬((5:ℚ) = 0 ∨ (3:ℚ) > 5) ∧ upsert_search_volume [5] 3 = [5] :=
  ⟨Or.inl rfl, C2_google_trends_upsert.1 0 42 (Or.inl rfl), by norm_num,
    C2_google_trends_upsert.2.1 5 3 (by norm_num)⟩

/-- Claim C3: a keyword whose registry source is `seed` is never set to
`inactive`: `remove_keyword` rejects the request with HTTP 403 and leaves the
row unchanged, and the stale-keyword expiry job leaves the row unchanged. -/
theorem C3_seed_never_inactive :
    ∀ (r : KeywordRow) (cutoff : String), r.source = "seed" →
      remove_keyword (some r) = (some r, some 403) ∧
      expire_stale_keywords_row cutoff r = r := by
  intro r cutoff h
  constructor
  · simp [remove_keyword, h]
  · unfold expire_stale_keywords_row
    rw [if_neg]
    rintro ⟨h1, -⟩
    rw [h] at h1
    simp at h1

/-- Witness for `C3_seed_never_inactive` at a concrete seed row. -/
theorem C3_seed_never_inactive_witness :
    (KeywordRow.mk "y2k" "seed" "active" none).source = "seed" ∧
    remove_keyword (some (KeywordRow.mk "y2k" "seed" "active" none)) =
      (some (KeywordRow.mk "y2k" "seed" "active" none), some 403) ∧
    expire_stale_keywords_row "2025-06-01T00:00:00"
      (KeywordRow.mk "y2k" "seed" "active" none) =
      KeywordRow.mk "y2k" "seed" "active" none :=
  ⟨rfl, (C3_seed_never_inactive _ "2025-06-01T00:00:00" rfl).1,
    (C3_seed_never_inactive _ "2025-06-01T00:00:00" rfl).2⟩

/-- Claim C4: `_detect_lifecycle` is a pure function of
`(total_volume, volume_growth, acceleration, scale)` with scale-aware
thresholds — micro `(2, 15, 5)`, macro `(5, 100, 50)` — whose first rule gives
`Dormant` below the dormant threshold, and whenever
`−5 ≤ volume_growth ≤ 10` and `total_volume` exceeds the peak floor the stage
is `Peak` for `acceleration ≤ 0` and `Accelerating` otherwise (the three
earlier rules cannot fire under these hypotheses). -/
theorem C4_lifecycle_peak_rule :
    dormant_threshold "micro" = 2 ∧ emerging_vol_threshold "micro" = 15 ∧
    peak_vol_threshold "micro" = 5 ∧ dormant_threshold "macro" = 5 ∧
    emerging_vol_threshold "macro" = 100 ∧ peak_vol_threshold "macro" = 50 ∧
    (∀ (tv vg accel : ℚ) (scale : String), tv < dormant_threshold scale →
      _detect_lifecycle tv vg accel scale = "Dormant") ∧
    (∀ (tv vg accel : ℚ) (scale : String),
      -5 ≤ vg → vg ≤ 10 → tv > peak_vol_threshold scale →
      _detect_lifecycle tv vg accel scale =
        if accel ≤ 0 then "Peak" else "Accelerating") := by
  refine ⟨by simp [dormant_threshold], by simp [emerging_vol_threshold],
    by simp [peak_vol_threshold], by simp [dormant_threshold],
    by simp [emerging_vol_threshold], by simp [peak_vol_threshold], ?_, ?_⟩
  · intro tv vg accel scale h
    by_cases hm : scale = "micro" <;>
      simp only [dormant_threshold, hm, if_pos, if_neg, reduceIte] at h <;>
      simp [_detect_lifecycle, hm, h]
  · intro tv vg accel scale h1 h2 h3
    by_cases hm : scale = "micro"
    · simp only [peak_vol_threshold, hm, reduceIte] at h3
      simp only [_detect_lifecycle, hm, reduceIte]
      rw [if_neg (by push_neg; linarith), if_neg (by push_neg; intro; linarith),
        if_neg (by push_neg; intro; linarith), if_pos ⟨h1, h2, h3⟩]
    · simp only [peak_vol_threshold, hm, reduceIte] at h3
      simp only [_detect_lifecycle, hm, reduceIte]
      rw [if_neg (by push_neg; linarith), if_neg (by push_neg; intro; linarith),
        if_neg (by push_neg; intro; linarith), if_pos ⟨h1, h2, h3⟩]

/-- Witness for `C4_lifecycle_peak_rule` at concrete inputs: a micro keyword
with total volume 1 is `Dormant`; a macro keyword with total volume 60, zero
growth and acceleration −1 is `Peak`, and with acceleration 1 `Accelerating`. -/
theorem C4_lifecycle_peak_rule_witness :
    ((1:ℚ) < dormant_threshold "micro" ∧ _detect_lifecycle 1 0 0 "micro" = "Dormant") ∧
    ((-5:ℚ) ≤ 0 ∧ (0:ℚ) ≤ 10 ∧ (60:ℚ) > peak_vol_threshold "macro" ∧
      _detect_lifecycle 60 0 (-1) "macro" = "Peak" ∧
      _detect_lifecycle 60 0 1 "macro" = "Accelerating") := by
  have hdorm := C4_lifecycle_peak_rule.2.2.2.2.2.2.1 1 0 0 "micro"
    (by simp only [dormant_threshold, String.reduceEq, reduceIte]; norm_num)
  have hpeak := C4_lifecycle_peak_rule.2.2.2.2.2.2.2 60 0 (-1) "macro"
    (by norm_num) (by norm_num)
    (by simp only [peak_vol_threshold, String.reduceEq, reduceIte]; norm_num)
  have hacc := C4_lifecycle_peak_rule.2.2.2.2.2.2.2 60 0 1 "macro"
    (by norm_num) (by norm_num)
    (by simp only [peak_vol_threshold, String.reduceEq, reduceIte]; norm_num)
  refine ⟨⟨by simp only [dormant_threshold, String.reduceEq, reduceIte]; norm_num, hdorm⟩,
    by norm_num, by norm_num,
    by simp only [peak_vol_threshold, String.reduceEq, reduceIte]; norm_num, ?_, ?_⟩
  · rw [hpeak]; norm_num
  · rw [hacc]; norm_num

/-- Claim C5, counterexample: with a raw volume growth of `1.3418` (e.g. one
first-half volume sample `10000` and one second-half sample `10134.18`) and no
price data, the stored composite score is `round(0.6·1.3418, 2) = 0.81`, while
recomputing `round(0.6·volume_growth + 0.4·price_growth, 2)` from the stored
(rounded) fields `volume_growth = 1.34`, `price_growth = 0` yields
`round(0.804, 2) = 0.80`. -/
theorem C5_composite_counterexample :
    (compute_composite_score "vintage jeans" 7 [10000] [10134.18] [] [] []
      "macro").composite_score = 0.81 ∧
    round2 (0.6 * (compute_composite_score "vintage jeans" 7 [10000] [10134.18] [] [] []
        "macro").volume_growth +
      0.4 * (compute_composite_score "vintage jeans" 7 [10000] [10134.18] [] [] []
        "macro").price_growth) = 0.80 ∧
    (compute_composite_score "vintage jeans" 7 [10000] [10134.18] [] [] []
        "macro").composite_score ≠
      round2 (0.6 * (compute_composite_score "vintage jeans" 7 [10000] [10134.18] [] [] []
          "macro").volume_growth +
        0.4 * (compute_composite_score "vintage jeans" 7 [10000] [10134.18] [] [] []
          "macro").price_growth) := by
  have hvg : _get_growth_rate [10000] [10134.18] = 1.3418 := by
    norm_num [_get_growth_rate]
  have hpg : _get_growth_rate ([] : List ℚ) [] = 0 := by
    norm_num [_get_growth_rate]
  have hA : (compute_composite_score "vintage jeans" 7 [10000] [10134.18] [] [] []
      "macro").composite_score = 0.81 := by
    show round2 (0.6 * _get_growth_rate [10000] [10134.18] +
      0.4 * _get_growth_rate [] []) = 0.81
    rw [hvg, hpg]
    norm_num [round2, roundHalfEven]
  have hB : (compute_composite_score "vintage jeans" 7 [10000] [10134.18] [] [] []
      "macro").volume_growth = 1.34 := by
    show round2 (_get_growth_rate [10000] [10134.18]) = 1.34
    rw [hvg]
    norm_num [round2, roundHalfEven]
  have hC : (compute_composite_score "vintage jeans" 7 [10000] [10134.18] [] [] []
      "macro").price_growth = 0 := by
    show round2 (_get_growth_rate [] []) = 0
    rw [hpg]
    norm_num [round2, roundHalfEven]
  have hD : round2 (0.6 * (1.34:ℚ) + 0.4 * 0) = 0.80 := by
    norm_num [round2, roundHalfEven]
  refine ⟨hA, ?_, ?_⟩
  · rw [hB, hC]; exact hD
  · rw [hA, hB, hC, hD]; norm_num

/-- Claim C5, amended: for every computed `ScoreRecord`, the stored
`composite_score` equals `round(0.6·volume_growth + 0.4·price_growth, 2)` of
the raw (unrounded) growth values; when both growths already have at most two
decimal places (so rounding loses nothing) this coincides with recomputing the
formula from the record's own stored, rounded `volume_growth` and
`price_growth` fields. -/
theorem C5_composite_invariant :
    (∀ (kw : String) (pd : ℕ) (fhv shv fhp shp prev : List ℚ) (scale : String),
      (compute_composite_score kw pd fhv shv fhp shp prev scale).composite_score =
        round2 (0.6 * _get_growth_rate fhv shv + 0.4 * _get_growth_rate fhp shp)) ∧
    (∀ (kw : String) (pd : ℕ) (fhv shv fhp shp prev : List ℚ) (scale : String) (zv zp : ℤ),
      100 * _get_growth_rate fhv shv = zv → 100 * _get_growth_rate fhp shp = zp →
      (compute_composite_score kw pd fhv shv fhp shp prev scale).composite_score =
        round2 (0.6 * (compute_composite_score kw pd fhv shv fhp shp prev scale).volume_growth +
          0.4 * (compute_composite_score kw pd fhv shv fhp shp prev scale).price_growth)) := by
  constructor
  · intro kw pd fhv shv fhp shp prev scale; rfl
  · intro kw pd fhv shv fhp shp prev scale zv zp hv hp
    have e1 : (compute_composite_score kw pd fhv shv fhp shp prev scale).volume_growth =
        _get_growth_rate fhv shv := round2_eq_self_of_mul_eq_int _ zv hv
    have e2 : (compute_composite_score kw pd fhv shv fhp shp prev scale).price_growth =
        _get_growth_rate fhp shp := round2_eq_self_of_mul_eq_int _ zp hp
    rw [e1, e2]
    rfl

/-- Witness for `C5_composite_invariant` at raw growths 10 and 0, which have
at most two decimal places. -/
theorem C5_composite_invariant_witness :
    100 * _get_growth_rate [10] [11] = ((1000 : ℤ) : ℚ) ∧
    100 * _get_growth_rate [] [] = ((0 : ℤ) : ℚ) ∧
    (compute_composite_score "k" 7 [10] [11] [] [] [] "macro").composite_score =
      round2 (0.6 * (compute_composite_score "k" 7 [10] [11] [] [] [] "macro").volume_growth +
        0.4 * (compute_composite_score "k" 7 [10] [11] [] [] [] "macro").price_growth) := by
  have h1 : 100 * _get_growth_rate [10] [11] = ((1000 : ℤ) : ℚ) := by
    norm_num [_get_growth_rate]
  have h2 : 100 * _get_growth_rate ([] : List ℚ) [] = ((0 : ℤ) : ℚ) := by
    norm_num [_get_growth_rate]
  exact ⟨h1, h2, C5_composite_invariant.2 "k" 7 [10] [11] [] [] [] "macro" 1000 0 h1 h2⟩

/-- Claim C6: `get_top_trends` ranks within each scale group by composite
score descending, assigns percentile `(group_size − rank_index) / group_size`,
and merges the groups sorted by percentile descending — so the combined list
is always sorted by percentile descending, and on a concrete snapshot with a
macro group of size 10 and a micro group of size 2 the micro keyword ranked
first in its group (percentile 1) appears before the macro keyword ranked
sixth of ten (percentile 1/2). -/
theorem C6_percentile_ranking :
    (∀ all_trends : List TrendRow,
      List.Sorted (fun a b : TrendRow × ℚ => b.2 ≤ a.2) (combined_trends all_trends)) ∧
    (combined_trends exampleTrends).map (fun p => (p.1.keyword, p.2)) =
      [("m1", 1), ("u1", 1), ("m2", 9/10), ("m3", 4/5), ("m4", 7/10), ("m5", 3/5),
       ("m6", 1/2), ("u2", 1/2), ("m7", 2/5), ("m8", 3/10), ("m9", 1/5), ("m10", 1/10)] := by
  constructor
  · intro all_trends
    exact sorted_sortByDesc (fun p : TrendRow × ℚ => p.2) _
  · norm_num [combined_trends, scale_group, sortByDesc, assign_percentile,
      assign_percentile_aux, trend_sort_key, exampleTrends, List.insertionSort,
      List.orderedInsert, List.filter]

/-- Claim C7: `forecast_search_volume` with fewer than 7 historical daily
points returns `insufficient_data = true` with an empty forecast (for every
horizon and every residual deviation), and with at least 7 points every
forecast value, lower bound and upper bound lies within `[0, 100]`. -/
theorem C7_forecast_contract :
    (∀ (historical : List ℚ) (horizon : ℕ) (std : ℚ), historical.length < 7 →
      (forecast_search_volume historical horizon std).insufficient_data = true ∧
      (forecast_search_volume historical horizon std).forecast = []) ∧
    (∀ (historical : List ℚ) (horizon : ℕ) (std : ℚ) (p : ForecastPoint),
      p ∈ (forecast_search_volume historical horizon std).forecast →
      0 ≤ p.value ∧ p.value ≤ 100 ∧ 0 ≤ p.lower ∧ p.lower ≤ 100 ∧
        0 ≤ p.upper ∧ p.upper ≤ 100) := by
  constructor
  · intro hist horizon std h
    unfold forecast_search_volume
    rw [if_pos (by simpa [MIN_POINTS] using h)]
    exact ⟨rfl, rfl⟩
  · intro hist horizon std p hp
    by_cases h : hist.length < MIN_POINTS
    · unfold forecast_search_volume at hp
      rw [if_pos h] at hp
      simp at hp
    · unfold forecast_search_volume at hp
      rw [if_neg h] at hp
      simp only [List.mem_map, List.mem_range] at hp
      obtain ⟨i, -, rfl⟩ := hp
      refine ⟨lo_le_clip _ _ _ (by norm_num), clip_le_hi _ _ _,
        lo_le_clip _ _ _ (by norm_num), clip_le_hi _ _ _,
        lo_le_clip _ _ _ (by norm_num), clip_le_hi _ _ _⟩

/-- Witness for `C7_forecast_contract`: an empty history is insufficient, and
for the 7-point history `0, 10, ..., 60` (a perfect line of slope 10) with
horizon 1 and zero residual deviation the single forecast point is
`(70, 70, 70)`, inside `[0, 100]`. -/
theorem C7_forecast_contract_witness :
    (([] : List ℚ).length < 7 ∧
      (forecast_search_volume [] 5 1).insufficient_data = true ∧
      (forecast_search_volume [] 5 1).forecast = []) ∧
    ((⟨1, 70, 70, 70⟩ : ForecastPoint) ∈
        (forecast_search_volume [0, 10, 20, 30, 40, 50, 60] 1 0).forecast ∧
      0 ≤ (ForecastPoint.mk 1 70 70 70).value ∧ (ForecastPoint.mk 1 70 70 70).value ≤ 100 ∧
      0 ≤ (ForecastPoint.mk 1 70 70 70).lower ∧ (ForecastPoint.mk 1 70 70 70).lower ≤ 100 ∧
      0 ≤ (ForecastPoint.mk 1 70 70 70).upper ∧ (ForecastPoint.mk 1 70 70 70).upper ≤ 100) := by
  have hfc : (forecast_search_volume [0, 10, 20, 30, 40, 50, 60] 1 0).forecast =
      [⟨1, 70, 70, 70⟩] := by
    norm_num [forecast_search_volume, MIN_POINTS, FIT_WINDOW, CONFIDENCE_Z,
      polyfit1, clip, List.range_succ]
  have hmem : (⟨1, 70, 70, 70⟩ : ForecastPoint) ∈
      (forecast_search_volume [0, 10, 20, 30, 40, 50, 60] 1 0).forecast := by
    rw [hfc]
    exact List.mem_singleton_self _
  exact ⟨⟨by norm_num, (C7_forecast_contract.1 [] 5 1 (by norm_num)).1,
      (C7_forecast_contract.1 [] 5 1 (by norm_num)).2⟩,
    ⟨hmem, C7_forecast_contract.2 _ 1 0 _ hmem⟩⟩

theorem find_similar_propose_error (key : Bool) (kw : List Char)
    (tracked : List (List Char)) (c : Except Unit (List Char)) (e : Unit)
    (confirm : Bool) :
    find_similar_keyword key kw tracked (Except.error e) c confirm = none := by
  cases key with
  | false => rfl
  | true =>
    simp only [find_similar_keyword, Bool.not_true, Bool.false_eq_true, if_false,
      ite_self]

theorem find_similar_confirm_error (key : Bool) (kw : List Char)
    (tracked : List (List Char)) (p : Except Unit (List Char)) (e : Unit) :
    find_similar_keyword key kw tracked p (Except.error e) true = none := by
  cases key with
  | false => rfl
  | true =>
    simp only [find_similar_keyword, Bool.not_true, Bool.false_eq_true, if_false]
    by_cases he : tracked.filter (fun k => k ≠ kw) = []
    · rw [if_pos he]
    · rw [if_neg he]
      cases p with
      | error _ => rfl
      | ok raw =>
        by_cases hn : pyLower (pyStrip raw) = "none".data
        · simp only [if_pos hn]
        · simp only [if_neg hn]
          cases hf : (tracked.filter (fun k => k ≠ kw)).find?
              (fun k => pyLower k = pyLower (pyStrip raw)) with
          | none => simp only [hf]
          | some matched => simp only [hf]

theorem find_similar_keyword_eq_some (key : Bool) (kw : List Char)
    (tracked : List (List Char)) (p c : Except Unit (List Char)) (m : List Char)
    (h : find_similar_keyword key kw tracked p c true = some m) :
    key = true ∧
    (∃ raw, p = Except.ok raw ∧
      (tracked.filter (fun k => k ≠ kw)).find?
        (fun k => pyLower k = pyLower (pyStrip raw)) = some m) ∧
    (∃ craw, c = Except.ok craw ∧ pyUpper (pyStrip craw) = "YES".data) := by
  cases key with
  | false => simp [find_similar_keyword] at h
  | true =>
  cases p with
  | error e => rw [find_similar_propose_error] at h; cases h
  | ok raw =>
  cases c with
  | error e => rw [find_similar_confirm_error] at h; cases h
  | ok craw =>
  simp only [find_similar_keyword, Bool.not_true, Bool.false_eq_true, if_false] at h
  by_cases he : tracked.filter (fun k => k ≠ kw) = []
  · rw [if_pos he] at h; cases h
  · rw [if_neg he] at h
    by_cases hn : pyLower (pyStrip raw) = "none".data
    · rw [if_pos hn] at h; cases h
    · rw [if_neg hn] at h
      cases hf : (tracked.filter (fun k => k ≠ kw)).find?
          (fun k => pyLower k = pyLower (pyStrip raw)) with
      | none => simp only [hf] at h; cases h
      | some matched =>
        simp only [hf] at h
        by_cases hy : pyUpper (pyStrip craw) = "YES".data
        · rw [if_pos hy] at h
          injection h with hm
          subst hm
          exact ⟨rfl, ⟨raw, rfl, hf⟩, ⟨craw, rfl, hy⟩⟩
        · rw [if_neg hy] at h; cases h

/-- Claim C8: with `confirm = True` (the discovery path), a candidate is
suppressed (a match returned) only when the API key is configured, the propose
step returned a reply matching an existing tracked keyword, and the separate
confirmation call answered YES; an unconfigured key, an exception in either
call, or a non-YES confirmation all yield `none`, letting the candidate
proceed to be tracked (fail-open). -/
theorem C8_two_step_dedup :
    (∀ (kw : List Char) (tracked : List (List Char)) (p c : Except Unit (List Char)),
      find_similar_keyword false kw tracked p c true = none) ∧
    (∀ (key : Bool) (kw : List Char) (tracked : List (List Char))
        (c : Except Unit (List Char)) (e : Unit),
      find_similar_keyword key kw tracked (Except.error e) c true = none) ∧
    (∀ (key : Bool) (kw : List Char) (tracked : List (List Char))
        (p : Except Unit (List Char)) (e : Unit),
      find_similar_keyword key kw tracked p (Except.error e) true = none) ∧
    (∀ (key : Bool) (kw : List Char) (tracked : List (List Char))
        (p : Except Unit (List Char)) (craw : List Char),
      pyUpper (pyStrip craw) ≠ "YES".data →
      find_similar_keyword key kw tracked p (Except.ok craw) true = none) ∧
    (∀ (key : Bool) (kw : List Char) (tracked : List (List Char))
        (p c : Except Unit (List Char)) (m : List Char),
      find_similar_keyword key kw tracked p c true = some m →
      key = true ∧
      (∃ raw, p = Except.ok raw ∧
        (tracked.filter (fun k => k ≠ kw)).find?
          (fun k => pyLower k = pyLower (pyStrip raw)) = some m) ∧
      (∃ craw, c = Except.ok craw ∧ pyUpper (pyStrip craw) = "YES".data)) := by
  refine ⟨fun kw tr p c => rfl,
    fun key kw tr c e => find_similar_propose_error key kw tr c e true,
    fun key kw tr p e => find_similar_confirm_error key kw tr p e, ?_,
    fun key kw tr p c m h => find_similar_keyword_eq_some key kw tr p c m h⟩
  intro key kw tr p craw hne
  cases hr : find_similar_keyword key kw tr p (Except.ok craw) true with
  | none => rfl
  | some m =>
    obtain ⟨-, -, ⟨craw', hc, hy⟩⟩ := find_similar_keyword_eq_some key kw tr p _ m hr
    injection hc with hcc
    subst hcc
    exact absurd hy hne

/-- Witness for `C8_two_step_dedup`: concretely, with tracked keyword `b` and
propose reply `b`, a `NO` confirmation yields no match while a `YES`
confirmation yields the match `b` with both affirmative signals. -/
theorem C8_two_step_dedup_witness :
    find_similar_keyword true ['x'] [['b']] (Except.ok ['b']) (Except.ok ['N', 'O']) true
        = none ∧
    find_similar_keyword true ['x'] [['b']] (Except.ok ['b']) (Except.ok ['Y', 'E', 'S']) true
        = some ['b'] ∧
    (true = true ∧
      (∃ raw, (Except.ok ['b'] : Except Unit (List Char)) = Except.ok raw ∧
        ([['b']].filter (fun k => k ≠ ['x'])).find?
          (fun k => pyLower k = pyLower (pyStrip raw)) = some ['b']) ∧
      (∃ craw, (Except.ok ['Y', 'E', 'S'] : Except Unit (List Char)) = Except.ok craw ∧
        pyUpper (pyStrip craw) = "YES".data)) := by
  have hyes : find_similar_keyword true ['x'] [['b']] (Except.ok ['b'])
      (Except.ok ['Y', 'E', 'S']) true = some ['b'] := by decide
  exact ⟨C8_two_step_dedup.2.2.2.1 true ['x'] [['b']] (Except.ok ['b']) ['N', 'O']
      (by decide), hyes,
    C8_two_step_dedup.2.2.2.2 true ['x'] [['b']] (Except.ok ['b'])
      (Except.ok ['Y', 'E', 'S']) ['b'] hyes⟩

/-- Claim C9, counterexample: the seed-load path stores
`keyword.lower().strip()` without collapsing internal whitespace, so a seed
entry `"quiet  luxury"` (two internal spaces) is inserted verbatim; it still
contains adjacent whitespace and differs from the normalized form
`"quiet luxury"` that `router._normalize` produces. -/
theorem C9_normalization_counterexample :
    seed_normalize "quiet  luxury".data = "quiet  luxury".data ∧
    no_adjacent_ws (seed_normalize "quiet  luxury".data) = false ∧
    _normalize "quiet  luxury".data = "quiet luxury".data ∧
    seed_normalize "quiet  luxury".data ≠ _normalize "quiet  luxury".data :=
  ⟨by decide, by decide, by decide, by decide⟩

/-- Claim C9, amended: keywords inserted through the router paths (user
search) are normalized by `_normalize` — lowercase, trimmed, internal
whitespace collapsed, so the stored string never contains two adjacent
whitespace characters — while the seed-load and auto-discovery paths only
lowercase and trim without collapsing internal whitespace
(`seed_normalize`/`discovery_normalize`); registry uniqueness is by the exact
stored string. -/
theorem C9_user_path_normalized :
    ∀ s : List Char, no_adjacent_ws (_normalize s) = true := by
  intro s
  exact no_adjacent_ws_collapse (pyStrip (pyLower s)) false

/-- Claim C10: a keyword with no registry row or a NULL scale is treated as
macro everywhere: by the truthiness default in `compute_composite_score`, by
the `COALESCE(k.scale, 'macro')` of `get_top_trends` — whose macro percentile
group contains exactly the trends with coalesced scale `"macro"` — and by the
`row["scale"] or "macro"` default of the scale refinement pass. -/
theorem C10_default_scale :
    scale_from_registry none = "macro" ∧
    scale_from_registry (some none) = "macro" ∧
    coalesce_scale none = "macro" ∧
    coalesce_scale (some none) = "macro" ∧
    scale_or_default none = "macro" ∧
    (∀ (all_trends : List TrendRow) (t : TrendRow),
      t ∈ scale_group "macro" all_trends ↔ t ∈ all_trends ∧ t.scale = "macro") := by
  refine ⟨rfl, rfl, rfl, rfl, rfl, ?_⟩
  intro ts t
  unfold scale_group sortByDesc
  rw [List.mem_insertionSort]
  simp [List.mem_filter]
